import Mathlib

/-
Verification of the CubeUniverseRs job system against its specification.

Shallow embedding of src/shared/src/engine/job/job_data.rs and
src/shared/src/engine/job/system.rs. Machine integers (usize) are modelled
as Nat; the reference platform is 64-bit, so one machine word is 8 bytes
and usize MAX is 2 ^ 64 - 1. Raw-pointer copies are modelled by the exact
number of bytes they move, computed from the element type of the pointers
involved, exactly as the Rust functions std::ptr::copy_nonoverlapping and
std::ptr::write_bytes define it (count is a number of ELEMENTS, so the
byte count is count times the element size).
-/

/-- Size in bytes of one machine word (usize) on the 64-bit reference platform. -/
def size_of_usize : Nat := 8

/-- Largest value of usize on the 64-bit reference platform. -/
def usize_max : Nat := 2 ^ 64 - 1

/-- Size in bytes of JobRunDataBuffer, which is declared as a field
buffer of type array [usize; 5]; this is the capacity C of the spec. -/
def size_of_JobRunDataBuffer : Nat := 5 * size_of_usize

/-- Semantics of the Rust debug_assert macro: the check is active only when
debug assertions are compiled in; with them off the assertion always passes. -/
def rustDebugAssert (debug_assertions cond : Bool) : Bool :=
  !debug_assertions || cond

/-- Value model of JobRunDataBuffer: the five usize words of the field
buffer, indexed exactly as the Rust array is. -/
structure JobRunDataBuffer where
  buffer : Fin 5 → Nat

/-- JobRunDataBuffer::is_zeroed, comparing each of the five words with 0,
exactly as the source does. -/
def JobRunDataBuffer.is_zeroed (b : JobRunDataBuffer) : Bool :=
  b.buffer 0 == 0
  && b.buffer 1 == 0
  && b.buffer 2 == 0
  && b.buffer 3 == 0
  && b.buffer 4 == 0

/-- Default for JobRunDataBuffer: buffer set to [0; 5]. -/
def JobRunDataBuffer.default : JobRunDataBuffer :=
  ⟨fun _ => 0⟩

/-- Drop for JobRunDataBuffer runs the plain assert macro (not debug_assert)
on is_zeroed, so the check does not depend on the build flag: the result is
whether the destruction-time assertion passes. -/
def drop_check_passes (debug_assertions : Bool) (b : JobRunDataBuffer) : Bool :=
  b.is_zeroed

/-- Number of bytes moved by the copy in JobRunDataBuffer::new. The source
calls copy_nonoverlapping with two pointers of element type usize and count
size_of T, which by the definition of copy_nonoverlapping moves
size_of T many usize elements, that is size_of T times 8 bytes. -/
def new_copy_bytes (size_of_T : Nat) : Nat :=
  size_of_T * size_of_usize

/-- Number of bytes moved by the copy in JobRunDataBuffer::get. The source
calls copy_nonoverlapping with two pointers of element type T and count
size_of T, which moves size_of T many T elements, that is size_of T squared
bytes. -/
def get_copy_bytes (size_of_T : Nat) : Nat :=
  size_of_T * size_of_T

/-- Number of bytes zeroed by JobRunDataBuffer::fill_with_zero. The source
calls write_bytes with a pointer of element type usize and count
size_of JobRunDataBuffer (40), which zeroes 40 usize elements, that is
320 bytes, over a 40-byte array. -/
def fill_with_zero_bytes : Nat :=
  size_of_JobRunDataBuffer * size_of_usize

/-- Outcome of one bounded-payload-buffer operation: either the size
assertion at the call boundary fires (fatally, before any copy), or the
operation completes having moved the given number of bytes. -/
inductive BufferOp where
  | assertionFailure : BufferOp
  | completed (bytesCopied : Nat) : BufferOp
deriving DecidableEq

/-- Number of bytes an operation copied: zero when the boundary assertion
fired, since the assert statement precedes the copy in both new and get. -/
def BufferOp.bytes_copied : BufferOp → Nat
  | BufferOp.assertionFailure => 0
  | BufferOp.completed n => n

/-- Staged model of JobRunDataBuffer::new for a type of the given size:
first the assert on size_of T being at most size_of JobRunDataBuffer, then
the copy of new_copy_bytes bytes. -/
def new_model (size_of_T : Nat) : BufferOp :=
  if size_of_T ≤ size_of_JobRunDataBuffer then
    BufferOp.completed (new_copy_bytes size_of_T)
  else
    BufferOp.assertionFailure

/-- Staged model of JobRunDataBuffer::get for a type of the given size:
first the same size assert, then the copy of get_copy_bytes bytes. -/
def get_model (size_of_T : Nat) : BufferOp :=
  if size_of_T ≤ size_of_JobRunDataBuffer then
    BufferOp.completed (get_copy_bytes size_of_T)
  else
    BufferOp.assertionFailure

/-- The tagged union JobFunc of job_data.rs over the six callable shapes.
Callables are modelled by their effect on an abstract external state E;
a buffer-taking callable additionally receives and returns the buffer,
mirroring the mutable reference it gets in Rust. -/
inductive JobFunc (E : Type) where
  | FreeFunction (f : E → E)
  | FreeFunctionBuffer (f : E → JobRunDataBuffer → E × JobRunDataBuffer)
  | Member (f : E → E)
  | MemberBuffer (f : E → JobRunDataBuffer → E × JobRunDataBuffer)
  | Closure (f : E → E)
  | ClosureBuffer (f : E → JobRunDataBuffer → E × JobRunDataBuffer)

/-- JobFunc::new_from_func. -/
def JobFunc.new_from_func {E : Type} (func : E → E) : JobFunc E :=
  JobFunc.FreeFunction func

/-- JobFunc::new_from_func_buffer. -/
def JobFunc.new_from_func_buffer {E : Type}
    (func : E → JobRunDataBuffer → E × JobRunDataBuffer) : JobFunc E :=
  JobFunc.FreeFunctionBuffer func

/-- JobFunc::new_from_obj: wraps the captured object and the member function
into a closure stored in the Member variant, as the source line
let closure = move vbar vbar func(ref object) does. -/
def JobFunc.new_from_obj {E O : Type} (object : O) (func : O → E → E) : JobFunc E :=
  JobFunc.Member (fun e => func object e)

/-- JobFunc::new_from_obj_mut: same capture shape, Member variant. -/
def JobFunc.new_from_obj_mut {E O : Type} (object : O) (func : O → E → E) : JobFunc E :=
  JobFunc.Member (fun e => func object e)

/-- JobFunc::new_from_obj_buffer: capture into the MemberBuffer variant. -/
def JobFunc.new_from_obj_buffer {E O : Type} (object : O)
    (func : O → E → JobRunDataBuffer → E × JobRunDataBuffer) : JobFunc E :=
  JobFunc.MemberBuffer (fun e b => func object e b)

/-- JobFunc::new_from_obj_buffer_mut: capture into the MemberBuffer variant. -/
def JobFunc.new_from_obj_buffer_mut {E O : Type} (object : O)
    (func : O → E → JobRunDataBuffer → E × JobRunDataBuffer) : JobFunc E :=
  JobFunc.MemberBuffer (fun e b => func object e b)

/-- JobFunc::new_from_closure. -/
def JobFunc.new_from_closure {E : Type} (func : E → E) : JobFunc E :=
  JobFunc.Closure func

/-- JobFunc::new_from_closure_buffer. -/
def JobFunc.new_from_closure_buffer {E : Type}
    (func : E → JobRunDataBuffer → E × JobRunDataBuffer) : JobFunc E :=
  JobFunc.ClosureBuffer func

/-- Whether a JobFunc variant is one of the buffer-taking shapes, read off
the payload types of the union in the source. -/
def JobFunc.takes_buffer {E : Type} : JobFunc E → Bool
  | JobFunc.FreeFunction _ => false
  | JobFunc.FreeFunctionBuffer _ => true
  | JobFunc.Member _ => false
  | JobFunc.MemberBuffer _ => true
  | JobFunc.Closure _ => false
  | JobFunc.ClosureBuffer _ => true

/-- One application of the stored callable to the external state and the
buffer: the buffer-taking shapes may transform the buffer, the others
leave it untouched (they never see it). -/
def JobFunc.apply_once {E : Type} :
    JobFunc E → E → JobRunDataBuffer → E × JobRunDataBuffer
  | JobFunc.FreeFunction f, e, b => (f e, b)
  | JobFunc.FreeFunctionBuffer f, e, b => f e b
  | JobFunc.Member f, e, b => (f e, b)
  | JobFunc.MemberBuffer f, e, b => f e b
  | JobFunc.Closure f, e, b => (f e, b)
  | JobFunc.ClosureBuffer f, e, b => f e b

/-- JobData of job_data.rs: the callable union plus one owned buffer. -/
structure JobData (E : Type) where
  func : JobFunc E
  buffer : JobRunDataBuffer

/-- JobData::from_func: default (zeroed) buffer. -/
def JobData.from_func {E : Type} (func : E → E) : JobData E :=
  ⟨JobFunc.new_from_func func, JobRunDataBuffer.default⟩

/-- JobData::from_func_buffer: caller-supplied buffer. -/
def JobData.from_func_buffer {E : Type}
    (func : E → JobRunDataBuffer → E × JobRunDataBuffer)
    (buffer : JobRunDataBuffer) : JobData E :=
  ⟨JobFunc.new_from_func_buffer func, buffer⟩

/-- JobData::from_obj: default (zeroed) buffer. -/
def JobData.from_obj {E O : Type} (object : O) (func : O → E → E) : JobData E :=
  ⟨JobFunc.new_from_obj object func, JobRunDataBuffer.default⟩

/-- JobData::from_obj_mut: default (zeroed) buffer. -/
def JobData.from_obj_mut {E O : Type} (object : O) (func : O → E → E) : JobData E :=
  ⟨JobFunc.new_from_obj_mut object func, JobRunDataBuffer.default⟩

/-- JobData::from_obj_buffer: caller-supplied buffer. -/
def JobData.from_obj_buffer {E O : Type} (object : O)
    (func : O → E → JobRunDataBuffer → E × JobRunDataBuffer)
    (buffer : JobRunDataBuffer) : JobData E :=
  ⟨JobFunc.new_from_obj_buffer object func, buffer⟩

/-- JobData::from_obj_buffer_mut: caller-supplied buffer. -/
def JobData.from_obj_buffer_mut {E O : Type} (object : O)
    (func : O → E → JobRunDataBuffer → E × JobRunDataBuffer)
    (buffer : JobRunDataBuffer) : JobData E :=
  ⟨JobFunc.new_from_obj_buffer_mut object func, buffer⟩

/-- JobData::from_closure: default (zeroed) buffer. -/
def JobData.from_closure {E : Type} (func : E → E) : JobData E :=
  ⟨JobFunc.new_from_closure func, JobRunDataBuffer.default⟩

/-- JobData::from_closure_buffer: caller-supplied buffer. -/
def JobData.from_closure_buffer {E : Type}
    (func : E → JobRunDataBuffer → E × JobRunDataBuffer)
    (buffer : JobRunDataBuffer) : JobData E :=
  ⟨JobFunc.new_from_closure_buffer func, buffer⟩

/-- Observable outcome of JobData::invoke: the external state after the
call, the list of call events performed on the stored callable (an entry
per call, true when the buffer was passed by mutable reference), the final
content of the internal buffer, and whether the trailing debug_assert on
is_zeroed passes. -/
structure InvokeResult (E : Type) where
  state : E
  calls : List Bool
  buffer : JobRunDataBuffer
  debug_check_passes : Bool

/-- JobData::invoke: matches on the union tag, calls the callable in that
arm (once per arm, the buffer-taking arms receiving the fetched buffer by
mutable reference), then runs debug_assert on is_zeroed of the buffer. -/
def JobData.invoke {E : Type} (jd : JobData E) (debug_assertions : Bool)
    (e : E) : InvokeResult E :=
  match jd.func with
  | JobFunc.FreeFunction f =>
      ⟨f e, [false], jd.buffer,
        rustDebugAssert debug_assertions jd.buffer.is_zeroed⟩
  | JobFunc.FreeFunctionBuffer f =>
      ⟨(f e jd.buffer).1, [true], (f e jd.buffer).2,
        rustDebugAssert debug_assertions (f e jd.buffer).2.is_zeroed⟩
  | JobFunc.Member f =>
      ⟨f e, [false], jd.buffer,
        rustDebugAssert debug_assertions jd.buffer.is_zeroed⟩
  | JobFunc.MemberBuffer f =>
      ⟨(f e jd.buffer).1, [true], (f e jd.buffer).2,
        rustDebugAssert debug_assertions (f e jd.buffer).2.is_zeroed⟩
  | JobFunc.Closure f =>
      ⟨f e, [false], jd.buffer,
        rustDebugAssert debug_assertions jd.buffer.is_zeroed⟩
  | JobFunc.ClosureBuffer f =>
      ⟨(f e jd.buffer).1, [true], (f e jd.buffer).2,
        rustDebugAssert debug_assertions (f e jd.buffer).2.is_zeroed⟩

/-- Model of max_available_job_threads in system.rs: the value of
available_parallelism (a nonzero usize supplied by the platform) minus one.
Since the platform value is at least 1 the usize subtraction cannot wrap,
so Nat subtraction is exact here. -/
def max_available_job_threads (available_parallelism : Nat) : Nat :=
  available_parallelism - 1

/-- State of one worker thread as the scheduler observes it through the
non-blocking accessors is_executing and queued_count. -/
structure JobThread where
  is_executing : Bool
  queued_count : Nat
deriving DecidableEq

/-- Modelled from the spec: JobThread::new lives in the thread module that
is not part of the sources at hand; per the spec a worker is created once
at pool construction and starts idle with an empty queue. -/
def JobThread.new : JobThread :=
  ⟨false, 0⟩

/-- Modelled from the spec: JobThread::queue_job (thread module not in the
sources at hand) appends the job to the bounded FIFO queue of the thread,
raising its queue depth by one. -/
def JobThread.queue_job (t : JobThread) : JobThread :=
  { t with queued_count := t.queued_count + 1 }

/-- Modelled from the spec: JobThread::execute (thread module not in the
sources at hand) signals the run loop to wake and begin draining the queue
if it was idle; idempotent if already executing. -/
def JobThread.execute (t : JobThread) : JobThread :=
  { t with is_executing := true }

/-- Indexing self.threads as the selection loop does; indices produced by
the loop are always below thread_count, which equals the length in every
state the constructor builds, so the fallback value is never observed
there. -/
def thread_at_idx (threads : List JobThread) (i : Nat) : JobThread :=
  threads.getD i ⟨true, 0⟩

/-- The struct Inner of system.rs (named JobSystemInner here because Mathlib
already declares Inner): the worker array, its length, and the
rotating cursor current_optimal_thread. -/
structure JobSystemInner where
  threads : List JobThread
  thread_count : Nat
  current_optimal_thread : Nat
deriving DecidableEq

/-- The scan loop of Inner::get_optimal_thread_for_execution, translated
clause for clause. Parameters n and c0 are self.thread_count and the value
of self.current_optimal_thread on entry (the field is only written on the
short-circuit path, which returns at once, so every check_index is computed
from the entry value). The recursion counts the remaining iterations r with
loop counter i, carrying the three mutable locals minimum_queue_load,
is_optimal_executing and current_optimal. Result: the selected index and
the value of the cursor field after the call. -/
def select_loop (threads : List JobThread) (n c0 : Nat) :
    Nat → Nat → Nat → Bool → Nat → Nat × Nat
  | 0, _, _, _, current_optimal => (current_optimal, c0)
  | r + 1, i, minimum_queue_load, is_optimal_executing, current_optimal =>
    if !(thread_at_idx threads ((c0 + i) % n)).is_executing
        && (thread_at_idx threads ((c0 + i) % n)).queued_count == 0 then
      ((c0 + i) % n, ((c0 + i) % n + 1) % n)
    else if !(thread_at_idx threads ((c0 + i) % n)).is_executing
        && decide ((thread_at_idx threads ((c0 + i) % n)).queued_count
            < minimum_queue_load) then
      select_loop threads n c0 r (i + 1)
        (thread_at_idx threads ((c0 + i) % n)).queued_count false ((c0 + i) % n)
    else if decide ((thread_at_idx threads ((c0 + i) % n)).queued_count
            < minimum_queue_load)
        && is_optimal_executing then
      select_loop threads n c0 r (i + 1)
        (thread_at_idx threads ((c0 + i) % n)).queued_count
        is_optimal_executing ((c0 + i) % n)
    else
      select_loop threads n c0 r (i + 1)
        minimum_queue_load is_optimal_executing current_optimal

/-- Inner::get_optimal_thread_for_execution: runs the scan over all
thread_count indices starting at the cursor, with minimum_queue_load
initialised to usize MAX, is_optimal_executing to true and current_optimal
to the cursor. Returns the chosen index and the updated Inner state. -/
def JobSystemInner.get_optimal_thread_for_execution (inner : JobSystemInner) : Nat × JobSystemInner :=
  ((select_loop inner.threads inner.thread_count inner.current_optimal_thread
      inner.thread_count 0 usize_max true inner.current_optimal_thread).1,
   { inner with current_optimal_thread :=
      (select_loop inner.threads inner.thread_count inner.current_optimal_thread
        inner.thread_count 0 usize_max true inner.current_optimal_thread).2 })

/-- Index of the first thread in scan order (r remaining positions from
loop counter i) that is idle with an empty queue, if any: the condition of
the short-circuit branch of the scan. -/
def first_idle_empty (threads : List JobThread) (n c0 : Nat) :
    Nat → Nat → Option Nat
  | 0, _ => none
  | r + 1, i =>
    if !(thread_at_idx threads ((c0 + i) % n)).is_executing
        && (thread_at_idx threads ((c0 + i) % n)).queued_count == 0 then
      some ((c0 + i) % n)
    else
      first_idle_empty threads n c0 r (i + 1)

/-- JobSystem of system.rs, viewed through its mutex: the inner state. -/
structure JobSystem where
  inner : JobSystemInner
deriving DecidableEq

/-- JobSystem::new: thread_count fresh workers, cursor 0. -/
def JobSystem.new (thread_count : Nat) : JobSystem :=
  ⟨⟨List.replicate thread_count JobThread.new, thread_count, 0⟩⟩

/-- JobSystem::run_job: under the lock, pick the optimal thread index and
update the cursor; then (outside the lock) queue the job on that thread and
trigger execute on it. Returns the chosen index and the updated system. -/
def JobSystem.run_job (s : JobSystem) : Nat × JobSystem :=
  ((s.inner.get_optimal_thread_for_execution).1,
   ⟨{ (s.inner.get_optimal_thread_for_execution).2 with
      threads :=
        ((s.inner.get_optimal_thread_for_execution).2.threads.set
          (s.inner.get_optimal_thread_for_execution).1
          ((thread_at_idx (s.inner.get_optimal_thread_for_execution).2.threads
            (s.inner.get_optimal_thread_for_execution).1).queue_job.execute)) }⟩)

/-- Outcome of a call through the global handle: the debug-mode null check
fires, or (with debug assertions off and a null pointer) the dereference is
undefined, or the call is forwarded to the published scheduler. -/
inductive GlobalCall (A : Type) where
  | debug_assertion_failure : GlobalCall A
  | undefined_behavior : GlobalCall A
  | forwarded (a : A) : GlobalCall A
deriving DecidableEq

/-- Global scheduler pointer before job_system_init has run: null. -/
def job_system_ptr_initial : Option JobSystem := none

/-- job_system_init: constructs JobSystem::new(thread_count) and publishes
it through the global pointer. -/
def job_system_init (thread_count : Nat) : Option JobSystem :=
  some (JobSystem.new thread_count)

/-- job_system_run: debug_assert that the global pointer is not null, then
forward to run_job of the published scheduler. With debug assertions off a
null pointer is dereferenced (undefined). -/
def job_system_run (debug_assertions : Bool) (g : Option JobSystem) :
    GlobalCall (Nat × JobSystem) :=
  match g with
  | none =>
      if debug_assertions then GlobalCall.debug_assertion_failure
      else GlobalCall.undefined_behavior
  | some s => GlobalCall.forwarded s.run_job

/-- job_system_wait: debug_assert that the global pointer is not null, then
forward to wait of the published scheduler (the forwarded payload names the
scheduler whose wait is invoked). -/
def job_system_wait (debug_assertions : Bool) (g : Option JobSystem) :
    GlobalCall JobSystem :=
  match g with
  | none =>
      if debug_assertions then GlobalCall.debug_assertion_failure
      else GlobalCall.undefined_behavior
  | some s => GlobalCall.forwarded s

/-- If some scanned position holds an idle thread with an empty queue, the
scan returns its index (the first such in scan order) with the cursor
advanced to the successor modulo n, whatever the accumulator values are. -/
theorem select_loop_of_first_idle_empty_some
    (threads : List JobThread) (n c0 : Nat) :
    ∀ (r i minimum_queue_load : Nat) (is_optimal_executing : Bool)
      (current_optimal idx : Nat),
    first_idle_empty threads n c0 r i = some idx →
    select_loop threads n c0 r i minimum_queue_load is_optimal_executing
      current_optimal = (idx, (idx + 1) % n) := by
  intro r
  induction r with
  | zero =>
    intro i m e cur idx h
    simp [first_idle_empty] at h
  | succ r ih =>
    intro i m e cur idx h
    by_cases hc : (!(thread_at_idx threads ((c0 + i) % n)).is_executing
        && (thread_at_idx threads ((c0 + i) % n)).queued_count == 0) = true
    · rw [first_idle_empty, if_pos hc] at h
      rw [select_loop, if_pos hc]
      cases h
      rfl
    · rw [first_idle_empty, if_neg hc] at h
      rw [select_loop, if_neg hc]
      split
      · exact ih (i + 1) _ _ _ idx h
      · split
        · exact ih (i + 1) _ _ _ idx h
        · exact ih (i + 1) _ _ _ idx h

/-- If no scanned position holds an idle thread with an empty queue, the
scan leaves the cursor at its entry value c0, whatever the accumulators. -/
theorem select_loop_cursor_of_first_idle_empty_none
    (threads : List JobThread) (n c0 : Nat) :
    ∀ (r i minimum_queue_load : Nat) (is_optimal_executing : Bool)
      (current_optimal : Nat),
    first_idle_empty threads n c0 r i = none →
    (select_loop threads n c0 r i minimum_queue_load is_optimal_executing
      current_optimal).2 = c0 := by
  intro r
  induction r with
  | zero =>
    intro i m e cur _
    rfl
  | succ r ih =>
    intro i m e cur h
    by_cases hc : (!(thread_at_idx threads ((c0 + i) % n)).is_executing
        && (thread_at_idx threads ((c0 + i) % n)).queued_count == 0) = true
    · rw [first_idle_empty, if_pos hc] at h
      cases h
    · rw [first_idle_empty, if_neg hc] at h
      rw [select_loop, if_neg hc]
      split
      · exact ih (i + 1) _ _ _ h
      · split
        · exact ih (i + 1) _ _ _ h
        · exact ih (i + 1) _ _ _ h

/-- The index delivered by first_idle_empty points at a thread that is
not executing and has an empty queue. -/
theorem first_idle_empty_spec (threads : List JobThread) (n c0 : Nat) :
    ∀ (r i idx : Nat),
    first_idle_empty threads n c0 r i = some idx →
    (thread_at_idx threads idx).is_executing = false ∧
    (thread_at_idx threads idx).queued_count = 0 := by
  intro r
  induction r with
  | zero =>
    intro i idx h
    simp [first_idle_empty] at h
  | succ r ih =>
    intro i idx h
    by_cases hc : (!(thread_at_idx threads ((c0 + i) % n)).is_executing
        && (thread_at_idx threads ((c0 + i) % n)).queued_count == 0) = true
    · rw [first_idle_empty, if_pos hc] at h
      cases h
      simp only [Bool.and_eq_true, Bool.not_eq_true', beq_iff_eq] at hc
      exact hc
    · rw [first_idle_empty, if_neg hc] at h
      exact ih (i + 1) idx h

/-- When some position within range holds an idle thread with an empty
queue, first_idle_empty finds one. -/
theorem first_idle_empty_isSome (threads : List JobThread) (n c0 : Nat) :
    ∀ (r i : Nat),
    (∃ j, j < r ∧
      (thread_at_idx threads ((c0 + (i + j)) % n)).is_executing = false ∧
      (thread_at_idx threads ((c0 + (i + j)) % n)).queued_count = 0) →
    (first_idle_empty threads n c0 r i).isSome = true := by
  intro r
  induction r with
  | zero =>
    intro i h
    obtain ⟨j, hj, _⟩ := h
    omega
  | succ r ih =>
    intro i h
    by_cases hc : (!(thread_at_idx threads ((c0 + i) % n)).is_executing
        && (thread_at_idx threads ((c0 + i) % n)).queued_count == 0) = true
    · rw [first_idle_empty, if_pos hc]
      rfl
    · rw [first_idle_empty, if_neg hc]
      obtain ⟨j, hj, hidle, hqueue⟩ := h
      cases j with
      | zero =>
        exfalso
        apply hc
        simp only [Bool.and_eq_true, Bool.not_eq_true', beq_iff_eq]
        constructor
        · simpa using hidle
        · simpa using hqueue
      | succ j =>
        apply ih (i + 1)
        refine ⟨j, by omega, ?_, ?_⟩
        · have harith : c0 + (i + 1 + j) = c0 + (i + (j + 1)) := by omega
          rw [harith]
          exact hidle
        · have harith : c0 + (i + 1 + j) = c0 + (i + (j + 1)) := by omega
          rw [harith]
          exact hqueue

/-- C1 (code bug evidence): for T = u64 (size 8, well under the 40-byte
capacity) the size assertion in JobRunDataBuffer::new passes and the copy
then moves 64 bytes, 8 usize elements, into the 40-byte buffer, because the
count argument of copy_nonoverlapping counts usize elements and not bytes;
likewise JobRunDataBuffer::get copies 64 bytes (8 elements of T) into an
8-byte destination, and fill_with_zero zeroes 320 bytes. The round trip
claimed by the specification is therefore performed with out-of-bounds
reads and writes instead of the intended size_of T byte copy. -/
theorem c1_copy_count_unit_bug_at_u64 :
    new_model 8 = BufferOp.completed 64
    ∧ size_of_JobRunDataBuffer = 40
    ∧ size_of_JobRunDataBuffer < new_copy_bytes 8
    ∧ get_model 8 = BufferOp.completed 64
    ∧ fill_with_zero_bytes = 320
    ∧ size_of_JobRunDataBuffer < fill_with_zero_bytes := by
  decide

/-- C3: for every construction form, invoke calls the stored callable
exactly once (the call event list is a singleton), the internal buffer is
passed by mutable reference exactly to the buffer-taking forms (the event
records takes_buffer of the stored shape), the state and buffer after
invoke are exactly one application of the stored callable, and afterwards
the buffer being zeroed is checked with debug_assert, a fatal check in
debug builds. -/
theorem c3_invoke_calls_once {E : Type} (jd : JobData E)
    (debug_assertions : Bool) (e : E) :
    (jd.invoke debug_assertions e).calls = [jd.func.takes_buffer]
    ∧ ((jd.invoke debug_assertions e).state, (jd.invoke debug_assertions e).buffer)
        = jd.func.apply_once e jd.buffer
    ∧ (jd.invoke debug_assertions e).debug_check_passes
        = rustDebugAssert debug_assertions
            (jd.invoke debug_assertions e).buffer.is_zeroed := by
  cases jd with
  | mk func buffer =>
    cases func <;>
      simp [JobData.invoke, JobFunc.takes_buffer, JobFunc.apply_once]

/-- C6: the destruction-time check of JobRunDataBuffer is the plain assert
macro on is_zeroed: it fails exactly on a buffer that is not all zero, it
passes on an all-zero buffer, and it does not depend on whether debug
assertions are compiled in. -/
theorem c6_drop_assert_unconditional (debug_assertions : Bool)
    (b : JobRunDataBuffer) :
    (b.is_zeroed = false → drop_check_passes debug_assertions b = false)
    ∧ (b.is_zeroed = true → drop_check_passes debug_assertions b = true)
    ∧ drop_check_passes debug_assertions b = drop_check_passes true b :=
  ⟨fun h => h, fun h => h, rfl⟩

/-- Witness for C6 at concrete buffers: a buffer of five ones fails the
drop check even with debug assertions off, and the default buffer passes
it. -/
theorem c6_drop_assert_unconditional_witness :
    drop_check_passes false ⟨fun _ => 1⟩ = false
    ∧ drop_check_passes true JobRunDataBuffer.default = true :=
  ⟨(c6_drop_assert_unconditional false ⟨fun _ => 1⟩).1 (by decide),
   (c6_drop_assert_unconditional true JobRunDataBuffer.default).2.1 (by decide)⟩

/-- C7: for a type larger than the 40-byte capacity both new and get fail
the size assertion at the call boundary with zero bytes copied, and for a
type within capacity neither size assertion fires. -/
theorem c7_size_assert_at_call_boundary (size_of_T : Nat) :
    (size_of_JobRunDataBuffer < size_of_T →
      new_model size_of_T = BufferOp.assertionFailure
      ∧ get_model size_of_T = BufferOp.assertionFailure
      ∧ (new_model size_of_T).bytes_copied = 0
      ∧ (get_model size_of_T).bytes_copied = 0)
    ∧ (size_of_T ≤ size_of_JobRunDataBuffer →
      new_model size_of_T ≠ BufferOp.assertionFailure
      ∧ get_model size_of_T ≠ BufferOp.assertionFailure) := by
  constructor
  · intro h
    have h2 : ¬ size_of_T ≤ size_of_JobRunDataBuffer := by omega
    simp [new_model, get_model, h2, BufferOp.bytes_copied]
  · intro h
    simp [new_model, get_model, h]

/-- Witness for C7 at sizes 41 (over capacity) and 8 (within capacity). -/
theorem c7_size_assert_at_call_boundary_witness :
    (new_model 41 = BufferOp.assertionFailure
      ∧ get_model 41 = BufferOp.assertionFailure
      ∧ (new_model 41).bytes_copied = 0
      ∧ (get_model 41).bytes_copied = 0)
    ∧ (new_model 8 ≠ BufferOp.assertionFailure
      ∧ get_model 8 ≠ BufferOp.assertionFailure) :=
  ⟨(c7_size_assert_at_call_boundary 41).1 (by decide),
   (c7_size_assert_at_call_boundary 8).2 (by decide)⟩

/-- C8 (code bug evidence): max_available_job_threads subtracts one from
the reported parallelism, so on a platform reporting parallelism 1 it
returns 0, although its own documentation and doctest promise a non-zero
result. -/
theorem c8_single_core_returns_zero :
    (∀ p : Nat, max_available_job_threads p = p - 1)
    ∧ max_available_job_threads 1 = 0
    ∧ ¬ 1 ≤ max_available_job_threads 1 :=
  ⟨fun _ => rfl, rfl, by decide⟩

/-- C10: a default JobRunDataBuffer is all zero, and every bufferless
JobData constructor (from_func, from_obj, from_obj_mut, from_closure)
initialises the internal buffer of the job to that zeroed state. -/
theorem c10_bufferless_constructors_zeroed {E O : Type} (f : E → E)
    (g : O → E → E) (obj : O) :
    JobRunDataBuffer.default.is_zeroed = true
    ∧ (JobData.from_func f).buffer.is_zeroed = true
    ∧ (JobData.from_obj obj g).buffer.is_zeroed = true
    ∧ (JobData.from_obj_mut obj g).buffer.is_zeroed = true
    ∧ (JobData.from_closure f).buffer.is_zeroed = true :=
  ⟨rfl, rfl, rfl, rfl, rfl⟩

/-- C2 (counterexample): with cursor 0, a busy thread of queue depth 1 at
index 0 and an idle thread of queue depth 5 at index 1, the selection
returns index 0, a busy thread, although an idle thread exists — the claim
that an idle thread is always preferred over any busy thread fails. -/
theorem c2_counterexample_busy_beats_idle :
    (thread_at_idx [⟨true, 1⟩, ⟨false, 5⟩] 1).is_executing = false
    ∧ (JobSystemInner.get_optimal_thread_for_execution
        ⟨[⟨true, 1⟩, ⟨false, 5⟩], 2, 0⟩).1 = 0
    ∧ (thread_at_idx [⟨true, 1⟩, ⟨false, 5⟩] 0).is_executing = true := by
  decide

/-- C2 (amended): whenever some thread in scan range is idle with an empty
queue, the selection returns an idle thread; if every idle thread has a
non-empty queue a busy thread may be returned instead. -/
theorem c2_amended_idle_selected (inner : JobSystemInner)
    (h : ∃ j, j < inner.thread_count ∧
      (thread_at_idx inner.threads
        ((inner.current_optimal_thread + j) % inner.thread_count)).is_executing
          = false ∧
      (thread_at_idx inner.threads
        ((inner.current_optimal_thread + j) % inner.thread_count)).queued_count
          = 0) :
    (thread_at_idx inner.threads
      inner.get_optimal_thread_for_execution.1).is_executing = false := by
  have hsome : (first_idle_empty inner.threads inner.thread_count
      inner.current_optimal_thread inner.thread_count 0).isSome = true := by
    apply first_idle_empty_isSome
    obtain ⟨j, hj, hidle, hqueue⟩ := h
    exact ⟨j, hj, by simpa using hidle, by simpa using hqueue⟩
  obtain ⟨idx, hidx⟩ := Option.isSome_iff_exists.mp hsome
  have hsel := select_loop_of_first_idle_empty_some inner.threads
    inner.thread_count inner.current_optimal_thread inner.thread_count 0
    usize_max true inner.current_optimal_thread idx hidx
  have hspec := first_idle_empty_spec inner.threads inner.thread_count
    inner.current_optimal_thread inner.thread_count 0 idx hidx
  simp only [JobSystemInner.get_optimal_thread_for_execution, hsel]
  exact hspec.1

/-- Witness for C2 amended: cursor 0 over a busy thread of depth 3 and an
idle empty thread; the selected thread is idle. -/
theorem c2_amended_idle_selected_witness :
    (thread_at_idx ([⟨true, 3⟩, ⟨false, 0⟩] : List JobThread)
      (JobSystemInner.get_optimal_thread_for_execution
        ⟨[⟨true, 3⟩, ⟨false, 0⟩], 2, 0⟩).1).is_executing = false :=
  c2_amended_idle_selected ⟨[⟨true, 3⟩, ⟨false, 0⟩], 2, 0⟩
    ⟨1, by decide, by decide, by decide⟩

/-- C4: with cursor 0, threads 0 and 1 busy at any queue depths and thread
2 idle with an empty queue, selection returns 2; and with every thread busy
at depths 5, 2, 2 and cursor 0, selection returns 1, the first thread in
scan order among those of minimum depth. -/
theorem c4_concrete_selection :
    (∀ l0 l1 : Nat,
      (JobSystemInner.get_optimal_thread_for_execution
        ⟨[⟨true, l0⟩, ⟨true, l1⟩, ⟨false, 0⟩], 3, 0⟩).1 = 2)
    ∧ (JobSystemInner.get_optimal_thread_for_execution
        ⟨[⟨true, 5⟩, ⟨true, 2⟩, ⟨true, 2⟩], 3, 0⟩).1 = 1 := by
  constructor
  · intro l0 l1
    have h : first_idle_empty [⟨true, l0⟩, ⟨true, l1⟩, ⟨false, 0⟩] 3 0 3 0
        = some 2 := by
      simp [first_idle_empty, thread_at_idx, List.getD]
    have hsel := select_loop_of_first_idle_empty_some
      [⟨true, l0⟩, ⟨true, l1⟩, ⟨false, 0⟩] 3 0 3 0 usize_max true 0 2 h
    simp [JobSystemInner.get_optimal_thread_for_execution, hsel]
  · decide

/-- C5: the scan short-circuits at the first thread in scan order that is
idle with an empty queue, returning its index and advancing the cursor to
the successor of that index modulo the thread count; on every other return
path the cursor keeps its entry value. -/
theorem c5_short_circuit_cursor (inner : JobSystemInner) :
    (∀ idx,
      first_idle_empty inner.threads inner.thread_count
        inner.current_optimal_thread inner.thread_count 0 = some idx →
      inner.get_optimal_thread_for_execution.1 = idx
      ∧ inner.get_optimal_thread_for_execution.2.current_optimal_thread
          = (idx + 1) % inner.thread_count)
    ∧ (first_idle_empty inner.threads inner.thread_count
        inner.current_optimal_thread inner.thread_count 0 = none →
      inner.get_optimal_thread_for_execution.2.current_optimal_thread
        = inner.current_optimal_thread) := by
  constructor
  · intro idx h
    have hsel := select_loop_of_first_idle_empty_some inner.threads
      inner.thread_count inner.current_optimal_thread inner.thread_count 0
      usize_max true inner.current_optimal_thread idx h
    simp [JobSystemInner.get_optimal_thread_for_execution, hsel]
  · intro h
    have hcur := select_loop_cursor_of_first_idle_empty_none inner.threads
      inner.thread_count inner.current_optimal_thread inner.thread_count 0
      usize_max true inner.current_optimal_thread h
    simp [JobSystemInner.get_optimal_thread_for_execution, hcur]

/-- Witness for C5: on the short-circuit side, cursor 0 over a busy thread
and an idle empty thread gives index 1 and cursor 0 = (1 + 1) mod 2; on the
other side, an all-busy pool with entry cursor 1 keeps cursor 1. -/
theorem c5_short_circuit_cursor_witness :
    ((JobSystemInner.get_optimal_thread_for_execution
        ⟨[⟨true, 1⟩, ⟨false, 0⟩], 2, 0⟩).1 = 1
      ∧ (JobSystemInner.get_optimal_thread_for_execution
        ⟨[⟨true, 1⟩, ⟨false, 0⟩], 2, 0⟩).2.current_optimal_thread = (1 + 1) % 2)
    ∧ (JobSystemInner.get_optimal_thread_for_execution
        ⟨[⟨true, 5⟩, ⟨true, 2⟩, ⟨true, 2⟩], 3, 1⟩).2.current_optimal_thread = 1 :=
  ⟨(c5_short_circuit_cursor ⟨[⟨true, 1⟩, ⟨false, 0⟩], 2, 0⟩).1 1 (by decide),
   (c5_short_circuit_cursor ⟨[⟨true, 5⟩, ⟨true, 2⟩, ⟨true, 2⟩], 3, 1⟩).2 (by decide)⟩

/-- C9: before job_system_init has published a scheduler, the global run
and wait entry points fail the debug-mode null-pointer assertion; after
job_system_init with any thread count, the same calls pass the assertion
and forward to run_job respectively wait of the published scheduler. -/
theorem c9_global_gating (thread_count : Nat) :
    job_system_run true job_system_ptr_initial
      = GlobalCall.debug_assertion_failure
    ∧ job_system_wait true job_system_ptr_initial
      = GlobalCall.debug_assertion_failure
    ∧ job_system_run true (job_system_init thread_count)
      = GlobalCall.forwarded (JobSystem.new thread_count).run_job
    ∧ job_system_wait true (job_system_init thread_count)
      = GlobalCall.forwarded (JobSystem.new thread_count) :=
  ⟨rfl, rfl, rfl, rfl⟩
